import Mathlib

/-!
Shallow embedding, in Lean 4, of the reconciliation and QoS core of the
`vmware-nsx` repository, covering
`vmware_nsx/shell/admin/plugins/nsxv/resources/networks.py`
(backend inventory collection, missing/orphaned network scans, switch
teaming-policy update, backend network deletion) and
`vmware_nsx/services/qos/nsx_v/utils.py` (the `NsxVQosRule` resolver).

Modelling conventions:
* Python strings are Lean `String`s; `str.startswith` is modelled as
  `pyStartsWith` (prefix on the character sequence).  A DB column that is
  `None` is modelled as `""` where the code only tests truthiness
  (`if not s`), and as `Option String` where `None` is distinguished.
* Backend and DB calls are passed in as explicit function parameters; the
  effect of a mutating call is recorded in an explicit result structure.
* Python exceptions are modelled with `Except`; an uncaught exception is
  `Except.error`.
-/

set_option autoImplicit false

deriving instance DecidableEq for Except

/-- Python `str.startswith`: the pattern is a prefix of the string's
character sequence. -/
def pyStartsWith (s pat : String) : Bool :=
  pat.data.isPrefixOf s.data

/-- One element of the parsed XML tree (`xml.etree.ElementTree` element):
a tag, its text (an element with `None` text is modelled with `""`), and
its list of children. -/
inductive XNode : Type where
  | mk (tag : String) (text : String) (children : List XNode)

/-- Tag of an element. -/
def XNode.tag : XNode → String
  | .mk t _ _ => t

/-- Text of an element. -/
def XNode.text : XNode → String
  | .mk _ tx _ => tx

/-- Children of an element. -/
def XNode.children : XNode → List XNode
  | .mk _ _ cs => cs

mutual

/-- Python `Element.iter(tag)`: every descendant of the element (the
element itself included) carrying the tag, in document order. -/
def XNode.iter (tag : String) : XNode → List XNode
  | .mk t tx cs =>
    (if t == tag then [XNode.mk t tx cs] else []) ++ XNode.iterMany tag cs

/-- `Element.iter` mapped over a list of elements. -/
def XNode.iterMany (tag : String) : List XNode → List XNode
  | [] => []
  | c :: cs => XNode.iter tag c ++ XNode.iterMany tag cs

end

/-- Python `Element.find(tag)`: the first direct child with the tag. -/
def XNode.findChild (n : XNode) (tag : String) : Option XNode :=
  n.children.find? (fun c => c.tag == tag)

/-- A raw backend response string, seen through `xml.etree.ElementTree`:
`et.fromstring` either parses it to a tree or raises `ParseError`.
`Response.malformed` stands for any string that fails XML parsing — in
particular the empty string — and `Response.tree root` for a string that
parses to `root`. -/
inductive Response : Type where
  | malformed
  | tree (root : XNode)

/-- Python `et.fromstring`: parse failure raises (`Except.error`). -/
def et_fromstring : Response → Except Unit XNode
  | .malformed => .error ()
  | .tree root => .ok root

/-- `obj.find(tag).text` in Python: raises `AttributeError`
(`Except.error`) when `find` returns `None`. -/
def findText (obj : XNode) (tag : String) : Except Unit String :=
  match obj.findChild tag with
  | none => .error ()
  | some c => .ok c.text

/-- `network_types` from networks.py. -/
def network_types : List String :=
  ["Network", "VirtualWire", "DistributedVirtualPortgroup"]

/-- `PORTGROUP_PREFIX` from networks.py. -/
def PORTGROUP_PREFIX : String := "dvportgroup"

/-- One entry of the list built by `get_networks`:
`{'type': ..., 'moref': ..., 'name': ...}`. -/
structure Net where
  type : String
  moref : String
  name : String
deriving Repr, DecidableEq

/-- The body of the `for obj in root.iter('object')` loop of
`get_networks`: if the object's `objectTypeName` is a recognized network
type, append `{type, moref, name}`.  A missing child element raises
`AttributeError`, exactly as `obj.find(...).text` does. -/
def collectStep (networks : List Net) (obj : XNode) : Except Unit (List Net) := do
  let tn ← findText obj "objectTypeName"
  if network_types.contains tn then
    let tn2 ← findText obj "objectTypeName"
    let oid ← findText obj "objectId"
    let nm ← findText obj "name"
    pure (networks ++ [⟨tn2, oid, nm⟩])
  else
    pure networks

/-- `get_networks()` from networks.py, with the backend response made
explicit: parse the scoping-objects listing, keep the objects whose
`objectTypeName` is a recognized network type, and collect
`{type, moref, name}` for each. Parse errors and missing child elements
propagate as errors, exactly as the Python raises. -/
def get_networks (resp : Response) : Except Unit (List Net) := do
  let root ← et_fromstring resp
  (root.iter "object").foldlM collectStep []

/-- The body of the `for obj in root.iter('object')` loop of
`get_networks_name_map`: record the `moref -> name` insertion. -/
def collectNameStep (networks : List (String × String)) (obj : XNode) :
    Except Unit (List (String × String)) := do
  let tn ← findText obj "objectTypeName"
  if network_types.contains tn then
    let oid ← findText obj "objectId"
    let nm ← findText obj "name"
    pure (networks ++ [(oid, nm)])
  else
    pure networks

/-- `get_networks_name_map()` from networks.py: the Python dict
`moref -> name` is modelled as the association list of insertions, in
insertion order. -/
def get_networks_name_map (resp : Response) :
    Except Unit (List (String × String)) := do
  let root ← et_fromstring resp
  (root.iter "object").foldlM collectNameStep []

/-- Lookup in a Python dict built by repeated assignment: the last
insertion for a key wins.  Models `d.get(k)` / `k in d` / `d[k]`. -/
def dictGet (d : List (String × String)) (k : String) : Option String :=
  (d.reverse.find? (fun p => p.1 == k)).map (fun p => p.2)

/-- One row returned by `nsx_db.get_nsx_networks_mapping`: the columns of
the neutron-nsx network mapping table that networks.py reads.  A NULL
`dvs_id` is modelled as `""` (the code only tests truthiness and uses it
as a `startswith` pattern, and `"".isPrefixOf` is always true, matching
Python where the NULL case is caught by the truthiness test first). -/
structure MappingRec where
  neutron_id : String
  nsx_id : String
  dvs_id : String
deriving Repr, DecidableEq

/-- One entry appended to `missing_networks` by `list_missing_networks`:
`{'neutron_id': ..., 'moref': ..., 'dvs_id': ...}`. -/
structure MissingEntry where
  neutron_id : String
  moref : String
  dvs_id : String
deriving Repr, DecidableEq

/-- The loop of `list_missing_networks` from networks.py, with the DB
mapping list and the backend name map made explicit.  For each mapping
record: if its `nsx_id` is not a key of the backend name map, or its
`dvs_id` is truthy and the backend name is not prefixed by it, the record
is reported missing. -/
def list_missing_networks :
    List MappingRec → List (String × String) → List MissingEntry
  | [], _ => []
  | entry :: rest, backend_networks =>
    (match dictGet backend_networks entry.nsx_id with
     | none => [⟨entry.neutron_id, entry.nsx_id, entry.dvs_id⟩]
     | some netname =>
       if entry.dvs_id ≠ "" then
         if pyStartsWith netname entry.dvs_id then []
         else [⟨entry.neutron_id, entry.nsx_id, entry.dvs_id⟩]
       else []) ++ list_missing_networks rest backend_networks

/-- `nsx_db.get_nsx_network_mapping_for_nsx_id`: all mapping records whose
`nsx_id` equals the given moref. -/
def get_nsx_network_mapping_for_nsx_id
    (mappings : List MappingRec) (moref : String) : List MappingRec :=
  mappings.filter (fun m => m.nsx_id == moref)

/-- The loop of `list_orphaned_networks` from networks.py, one backend
network at a time.  The accumulator carries `missing_networks` and the
state of the local variable `found`: `none` models "never assigned yet"
(the Python code never initializes `found`, and only ever assigns `True`
to it inside the inner loop), and reading it while unassigned raises
`UnboundLocalError`, modelled as `Except.error`. -/
def orphanedLoop (mappings : List MappingRec) :
    List Net → List Net → Option Bool → Except Unit (List Net)
  | [], missing_networks, _ => .ok missing_networks
  | net :: rest, missing_networks, found =>
    if pyStartsWith net.name "edge-" || net.type == "Network" then
      orphanedLoop mappings rest missing_networks found
    else
      let neutron_networks := get_nsx_network_mapping_for_nsx_id mappings net.moref
      if neutron_networks.isEmpty then
        orphanedLoop mappings rest (missing_networks ++ [net]) found
      else if pyStartsWith net.moref PORTGROUP_PREFIX then
        let found' :=
          if neutron_networks.any
              (fun entry => entry.dvs_id == "" || pyStartsWith net.name entry.dvs_id)
          then some true else found
        match found' with
        | none => .error ()
        | some f =>
          if !f then orphanedLoop mappings rest (missing_networks ++ [net]) found'
          else orphanedLoop mappings rest missing_networks found'
      else
        orphanedLoop mappings rest missing_networks found

/-- `list_orphaned_networks` from networks.py, with the backend inventory
and the DB mapping list made explicit: returns the list of backend
networks reported orphaned, or an error when the scan raises
`UnboundLocalError` on the uninitialized `found` flag. -/
def list_orphaned_networks (backend_networks : List Net)
    (mappings : List MappingRec) : Except Unit (List Net) :=
  orphanedLoop mappings backend_networks [] none

/-- `get_dvs_id_from_backend_name` from networks.py:
`re.search(r"^dvs-\d*", backend_name)`, returning the matched text —
`"dvs-"` followed by the longest run of digits — or `None` when the name
does not start with `"dvs-"`. -/
def get_dvs_id_from_backend_name (backend_name : String) : Option String :=
  if pyStartsWith backend_name "dvs-" then
    some (String.mk (backend_name.data.take 4 ++
      (backend_name.data.drop 4).takeWhile Char.isDigit))
  else none

/-- Python 3 `round` on a rational value: nearest integer, ties to even
(banker's rounding).  Used to model
`int(round(self.averageBandwidth * cfg.CONF.NSX.qos_peak_bw_multiplier))`;
the configured multiplier is modelled as an exact rational. -/
def pyRound (q : ℚ) : ℤ :=
  let f := q.num.fdiv q.den
  let r := q.num - f * q.den
  if 2 * r < (q.den : ℤ) then f
  else if 2 * r > (q.den : ℤ) then f + 1
  else if f % 2 = 0 then f else f + 1

/-- Rounding an exact integer value changes nothing. -/
lemma pyRound_intCast (n : ℤ) : pyRound ((n : ℚ)) = n := by
  simp [pyRound, Rat.num_intCast, Rat.den_intCast, Int.fdiv_one]

/-- Rounding a rational known to equal an integer yields that integer. -/
lemma pyRound_eq_of_intCast {q : ℚ} {n : ℤ} (h : q = (n : ℚ)) : pyRound q = n :=
  h ▸ pyRound_intCast n

/-- `qos_consts.RULE_TYPE_BANDWIDTH_LIMIT`. -/
def RULE_TYPE_BANDWIDTH_LIMIT : String := "bandwidth_limit"

/-- `qos_consts.RULE_TYPE_DSCP_MARKING`. -/
def RULE_TYPE_DSCP_MARKING : String := "dscp_marking"

/-- One neutron QoS rule dict as read by `_init_from_policy_id`: its
`type` and the fields the code accesses (`max_kbps`, `max_burst_kbps` for
bandwidth-limit rules, `dscp_mark` for DSCP rules). -/
structure QosRuleObj where
  type : String
  max_kbps : ℤ
  max_burst_kbps : ℤ
  dscp_mark : ℤ
deriving Repr, DecidableEq

/-- The fields of a `NsxVQosRule` object from
`vmware_nsx/services/qos/nsx_v/utils.py`. -/
structure NsxVQosRule where
  bandwidthEnabled : Bool
  averageBandwidth : ℤ
  peakBandwidth : ℤ
  burstSize : ℤ
  dscpMarkEnabled : Bool
  dscpMarkValue : ℤ
deriving Repr, DecidableEq

/-- The body of the `for rule_obj in policy_obj['rules']` loop of
`_init_from_policy_id`: a bandwidth-limit rule overwrites the bandwidth
fields (kbps -> bps and kbps -> bytes conversions, peak synthesized from
the average by the configured multiplier), a DSCP rule overwrites the
DSCP fields. -/
def applyRule (mult : ℚ) (self : NsxVQosRule) (rule_obj : QosRuleObj) :
    NsxVQosRule :=
  let self :=
    if rule_obj.type == RULE_TYPE_BANDWIDTH_LIMIT then
      let avg := rule_obj.max_kbps * 1024
      { self with
          bandwidthEnabled := true
          averageBandwidth := avg
          peakBandwidth := pyRound ((avg : ℚ) * mult)
          burstSize := rule_obj.max_burst_kbps * 128 }
    else self
  if rule_obj.type == RULE_TYPE_DSCP_MARKING then
    { self with dscpMarkEnabled := true, dscpMarkValue := rule_obj.dscp_mark }
  else self

/-- A neutron policy object as returned by `plugin.get_policy`: the code
only tests `'rules' in policy_obj` and reads `policy_obj['rules']`, so the
model keeps just that optional key. -/
structure PolicyObj where
  rules : Option (List QosRuleObj)
deriving Repr, DecidableEq

/-- `NsxVQosRule._init_from_policy_id`, with the configured multiplier and
the QoS plugin's `get_policy` passed in: reset the two enabled flags, then
fold every rule of the policy (when the `rules` key exists and is
non-empty) over the rule-application step. -/
def _init_from_policy_id (mult : ℚ) (get_policy : String → PolicyObj)
    (qos_policy_id : Option String) (self : NsxVQosRule) : NsxVQosRule :=
  let self := { self with bandwidthEnabled := false, dscpMarkEnabled := false }
  match qos_policy_id with
  | none => self
  | some pid =>
    match (get_policy pid).rules with
    | none => self
    | some rules =>
      if rules.length > 0 then rules.foldl (applyRule mult) self else self

/-- `NsxVQosRule.__init__`: all fields default to disabled/zero; when a
policy id is given, `_init_from_policy_id` is run on the defaults. -/
def NsxVQosRule.init (mult : ℚ) (get_policy : String → PolicyObj)
    (qos_policy_id : Option String) : NsxVQosRule :=
  let self : NsxVQosRule := ⟨false, 0, 0, 0, false, 0⟩
  match qos_policy_id with
  | none => self
  | some _ => _init_from_policy_id mult get_policy qos_policy_id self

/-- The vdn switch record handled by `nsx_update_switch`: its
`teamingPolicy` entry, plus the rest of the switch dict kept opaque. -/
structure VdnSwitch where
  teamingPolicy : String
  rest : String
deriving Repr, DecidableEq

/-- `supported_policies` from `nsx_update_switch`. -/
def supported_policies : List String :=
  ["ETHER_CHANNEL", "LOADBALANCE_LOADBASED", "LOADBALANCE_SRCID",
   "LOADBALANCE_SRCMAC", "FAILOVER_ORDER", "LACP_ACTIVE", "LACP_PASSIVE",
   "LACP_V2"]

/-- Observable outcome of one `nsx_update_switch` run: every switch
record passed to `nsxv.update_vdn_switch` (in call order), the `LOG.error`
messages, and the `LOG.info` messages. -/
structure SwitchOpResult where
  updateCalls : List VdnSwitch
  errors : List String
  infos : List String
deriving Repr, DecidableEq

/-- `nsx_update_switch` from networks.py.  The backend client is passed
in as `get_vdn_switch` (`none` models `ResourceNotFound`) and
`update_vdn_switch` (`Except.error details` models a `VcnsApiException`
whose parsed `details` string is given).  The parsed `--property` map is
passed as an optional lookup function (`none` models a missing/falsy
`kwargs['property']`; CLI parsing itself is outside this module). -/
def nsx_update_switch (get_vdn_switch : String → Option VdnSwitch)
    (update_vdn_switch : VdnSwitch → Except String VdnSwitch)
    (props : Option (String → Option String)) : SwitchOpResult :=
  match props with
  | none =>
    ⟨[], ["Need to specify dvs-id parameter and attribute to update. " ++
          "Add --property dvs-id=<dvs-id> --property teamingpolicy=<policy>"], []⟩
  | some properties =>
    match properties "dvs-id" with
    | none => ⟨[], ["Need to specify dvs-id. Add --property dvs-id=<dvs-id>"], []⟩
    | some dvs_id =>
      if dvs_id = "" then
        ⟨[], ["Need to specify dvs-id. Add --property dvs-id=<dvs-id>"], []⟩
      else
        match get_vdn_switch dvs_id with
        | none => ⟨[], ["DVS " ++ dvs_id ++ " not found"], []⟩
        | some switch =>
          let invalid : SwitchOpResult :=
            ⟨[], ["Invalid teaming policy. Add --property teamingpolicy=<policy>",
                  "Possible values: " ++ String.intercalate ", " supported_policies],
                ["Current switch value is: " ++ switch.teamingPolicy ++ switch.rest]⟩
          match properties "teamingpolicy" with
          | none => invalid
          | some policy =>
            if policy ∈ supported_policies then
              if switch.teamingPolicy = policy then
                ⟨[], [], ["Policy already set!"]⟩
              else
                let updating := "Updating NSXv switch " ++ dvs_id ++
                  " teaming policy to " ++ policy
                let switch' := { switch with teamingPolicy := policy }
                match update_vdn_switch switch' with
                | .error details =>
                  if pyStartsWith details "No enum constant" then
                    ⟨[switch'], ["Unknown teaming policy " ++ policy], [updating]⟩
                  else
                    ⟨[switch'], ["Unexpected error occurred: " ++ details], [updating]⟩
                | .ok updated =>
                  ⟨[switch'], [],
                   [updating, "Switch value after update: " ++
                     updated.teamingPolicy ++ updated.rest]⟩
            else invalid

/-- Observable outcome of one `delete_backend_network` run: every
`delete_port_group(dvs_id, moref)` call, every `delete_virtual_wire(moref)`
call, the `LOG.error` messages and the `LOG.info` messages. -/
structure DeleteOpResult where
  deletePortGroupCalls : List (String × String)
  deleteVirtualWireCalls : List String
  errors : List String
  infos : List String
deriving Repr, DecidableEq

/-- `delete_backend_network` from networks.py.  The current backend name
map is passed in (`name_map`, as collected by `get_networks_name_map`),
together with the two deletion calls of the backend client
(`Except.error e` models a raised exception rendered as `e`).  The parsed
`--property` map is passed as in `nsx_update_switch`. -/
def delete_backend_network (name_map : List (String × String))
    (delete_port_group : String → String → Except String Unit)
    (delete_virtual_wire : String → Except String Unit)
    (props : Option (String → Option String)) : DeleteOpResult :=
  let errmsg := "Need to specify moref property. Add --property moref=<moref>"
  match props with
  | none => ⟨[], [], [errmsg], []⟩
  | some properties =>
    match properties "moref" with
    | none => ⟨[], [], [errmsg], []⟩
    | some moref =>
      if moref = "" then ⟨[], [], [errmsg], []⟩
      else
        match dictGet name_map moref with
        | none => ⟨[], [], ["Failed to find the backend network " ++ moref], []⟩
        | some backend_name =>
          if backend_name = "" then
            ⟨[], [], ["Failed to find the backend network " ++ moref], []⟩
          else if pyStartsWith moref PORTGROUP_PREFIX then
            match get_dvs_id_from_backend_name backend_name with
            | none =>
              ⟨[], [], ["Failed to find the DVS id of backend network " ++ moref], []⟩
            | some dvs_id =>
              match delete_port_group dvs_id moref with
              | .error e =>
                ⟨[(dvs_id, moref)], [],
                 ["Failed to delete backend network " ++ moref ++ " : " ++ e], []⟩
              | .ok _ =>
                ⟨[(dvs_id, moref)], [], [],
                 ["Backend network " ++ moref ++ " was deleted"]⟩
          else
            match delete_virtual_wire moref with
            | .error e =>
              ⟨[], [moref],
               ["Failed to delete backend network " ++ moref ++ " : " ++ e], []⟩
            | .ok _ =>
              ⟨[], [moref], [], ["Backend network " ++ moref ++ " was deleted"]⟩

/-! Reconciliation-engine theorems. -/

/-- `objectTypeName` of the object exists but is not a recognized
network type: the collector loops skip such an object. -/
def unrecognizedObj (obj : XNode) : Bool :=
  match findText obj "objectTypeName" with
  | .ok tn => !network_types.contains tn
  | .error _ => false

lemma collectStep_unrecognized (acc : List Net) (obj : XNode)
    (h : unrecognizedObj obj = true) : collectStep acc obj = .ok acc := by
  unfold unrecognizedObj at h
  cases hf : findText obj "objectTypeName" with
  | error e => rw [hf] at h; simp at h
  | ok tn =>
    rw [hf] at h
    simp only [Bool.not_eq_true'] at h
    have h2 : tn ∉ network_types := by simpa using h
    simp [collectStep, hf, Except.instMonad, Except.bind, Except.pure, h, h2]

lemma collectNameStep_unrecognized (acc : List (String × String)) (obj : XNode)
    (h : unrecognizedObj obj = true) : collectNameStep acc obj = .ok acc := by
  unfold unrecognizedObj at h
  cases hf : findText obj "objectTypeName" with
  | error e => rw [hf] at h; simp at h
  | ok tn =>
    rw [hf] at h
    simp only [Bool.not_eq_true'] at h
    have h2 : tn ∉ network_types := by simpa using h
    simp [collectNameStep, hf, Except.instMonad, Except.bind, Except.pure, h, h2]

lemma foldlM_collectStep_unrecognized (objs : List XNode)
    (h : objs.all unrecognizedObj = true) (acc : List Net) :
    objs.foldlM collectStep acc = .ok acc := by
  induction objs generalizing acc with
  | nil => rfl
  | cons o rest ih =>
    simp only [List.all_cons, Bool.and_eq_true] at h
    simp only [List.foldlM_cons, collectStep_unrecognized acc o h.1]
    exact ih h.2 acc

lemma foldlM_collectNameStep_unrecognized (objs : List XNode)
    (h : objs.all unrecognizedObj = true) (acc : List (String × String)) :
    objs.foldlM collectNameStep acc = .ok acc := by
  induction objs generalizing acc with
  | nil => rfl
  | cons o rest ih =>
    simp only [List.all_cons, Bool.and_eq_true] at h
    simp only [List.foldlM_cons, collectNameStep_unrecognized acc o h.1]
    exact ih h.2 acc

/-- C2 counterexample: on a malformed (e.g. empty) backend response both
collectors raise the parse error instead of returning an empty
collection, so the claim as stated is false. -/
theorem collector_malformed_response_raises :
    get_networks Response.malformed = .error () ∧
    get_networks_name_map Response.malformed = .error () :=
  ⟨rfl, rfl⟩

/-- C2 (amended): a malformed or empty backend response makes the
collectors raise the parse failure; a response that parses but contains
no recognized network objects yields an empty collection. -/
theorem collector_malformed_raises_and_no_recognized_yields_empty :
    (get_networks Response.malformed = .error () ∧
     get_networks_name_map Response.malformed = .error ()) ∧
    ∀ root : XNode, (root.iter "object").all unrecognizedObj = true →
      get_networks (.tree root) = .ok [] ∧
      get_networks_name_map (.tree root) = .ok [] := by
  refine ⟨⟨rfl, rfl⟩, fun root h => ⟨?_, ?_⟩⟩
  · exact foldlM_collectStep_unrecognized _ h []
  · exact foldlM_collectNameStep_unrecognized _ h []

/-- C2 witness: the amended theorem applied to a parsed response holding
one object of an unrecognized type. -/
theorem collector_no_recognized_yields_empty_witness :
    get_networks (.tree (XNode.mk "r" "" [XNode.mk "object" ""
      [XNode.mk "objectTypeName" "HostSystem" []]])) = .ok [] ∧
    get_networks_name_map (.tree (XNode.mk "r" "" [XNode.mk "object" ""
      [XNode.mk "objectTypeName" "HostSystem" []]])) = .ok [] :=
  collector_malformed_raises_and_no_recognized_yields_empty.2
    (XNode.mk "r" "" [XNode.mk "object" ""
      [XNode.mk "objectTypeName" "HostSystem" []]]) rfl

/-- The missing-record classification as the spec states it (§4.2,
missing-networks scan): the record's backend id is absent from the
inventory name map, or its `dvs_id` is non-empty and the backend display
name does not begin with it. -/
def specMissing (backend_networks : List (String × String))
    (R : MappingRec) : Bool :=
  match dictGet backend_networks R.nsx_id with
  | none => true
  | some netname => R.dvs_id != "" && !(pyStartsWith netname R.dvs_id)

lemma list_missing_networks_eq (mappings : List MappingRec)
    (backend_networks : List (String × String)) :
    list_missing_networks mappings backend_networks =
      (mappings.filter (specMissing backend_networks)).map
        (fun R => (⟨R.neutron_id, R.nsx_id, R.dvs_id⟩ : MissingEntry)) := by
  induction mappings with
  | nil => rfl
  | cons entry rest ih =>
    simp only [list_missing_networks, ih, List.filter_cons]
    cases hd : dictGet backend_networks entry.nsx_id with
    | none => simp [specMissing, hd]
    | some netname =>
      by_cases h1 : entry.dvs_id = ""
      · simp [specMissing, hd, h1]
      · by_cases h2 : pyStartsWith netname entry.dvs_id = true
        · simp [specMissing, hd, h1, h2]
        · simp [specMissing, hd, h1, h2]

/-- C3: a mapping record is reported by the missing-networks scan exactly
when its backend id is absent from the inventory name map, or its
`dvs_id` is non-empty and the backend display name does not begin with
it (the spec-side condition `specMissing`). -/
theorem missing_scan_membership_characterization
    (mappings : List MappingRec) (backend_networks : List (String × String))
    (R : MappingRec) (hR : R ∈ mappings) :
    ((⟨R.neutron_id, R.nsx_id, R.dvs_id⟩ : MissingEntry) ∈
        list_missing_networks mappings backend_networks) ↔
      specMissing backend_networks R = true := by
  rw [list_missing_networks_eq]
  constructor
  · intro hm
    obtain ⟨r2, hmem, he⟩ := List.mem_map.mp hm
    obtain ⟨_, hc⟩ := List.mem_filter.mp hmem
    have hrr : r2 = R := by
      cases R; cases r2
      simp only [MissingEntry.mk.injEq] at he
      simp [he.1, he.2.1, he.2.2]
    rw [hrr] at hc
    exact hc
  · intro hc
    exact List.mem_map.mpr ⟨R, List.mem_filter.mpr ⟨hR, hc⟩, rfl⟩

/-- C3 witness: a record whose backend id is absent from the (empty)
inventory is reported missing. -/
theorem missing_scan_membership_witness :
    (⟨"n1", "moref-1", ""⟩ : MissingEntry) ∈
      list_missing_networks [⟨"n1", "moref-1", ""⟩] [] :=
  (missing_scan_membership_characterization [⟨"n1", "moref-1", ""⟩] []
    ⟨"n1", "moref-1", ""⟩ (by decide)).mpr (by decide)

/-- C9: the orphaned-networks scan is not total.  On an inventory whose
first distributed-port-group object has matching mapping records none of
which passes the adapter check, `if not found:` reads the never-assigned
local `found` and the scan raises `UnboundLocalError` instead of
returning a result. -/
theorem orphaned_scan_raises_unbound_local :
    list_orphaned_networks
      [⟨"DistributedVirtualPortgroup", "dvportgroup-2", "dvs-1-b"⟩]
      [⟨"n2", "dvportgroup-2", "dvs-9"⟩] = .error () := by decide

/-- C1: the orphaned classification is not a per-object function of the
object and its own matching records.  Here `dvportgroup-2` has mapping
records, none of which has an empty `dvs_id` or a `dvs_id` prefixing its
display name (second conjunct), so the claim classifies it orphaned; but
because the earlier object `dvportgroup-1` set the shared, never-reset
`found` flag, the scan returns no orphans at all. -/
theorem orphaned_scan_found_flag_leaks_across_objects :
    list_orphaned_networks
      [⟨"DistributedVirtualPortgroup", "dvportgroup-1", "dvs-1-a"⟩,
       ⟨"DistributedVirtualPortgroup", "dvportgroup-2", "dvs-1-b"⟩]
      [⟨"n1", "dvportgroup-1", "dvs-1"⟩, ⟨"n2", "dvportgroup-2", "dvs-9"⟩] =
      .ok [] ∧
    (get_nsx_network_mapping_for_nsx_id
        [⟨"n1", "dvportgroup-1", "dvs-1"⟩, ⟨"n2", "dvportgroup-2", "dvs-9"⟩]
        "dvportgroup-2").all
      (fun entry => !(entry.dvs_id == "" || pyStartsWith "dvs-1-b" entry.dvs_id))
      = true := by decide

/-! QoS-resolver theorems. -/

/-- The last rule of the given type in a rule list, in input order. -/
def lastRuleOfType (t : String) : List QosRuleObj → Option QosRuleObj
  | [] => none
  | r :: rest =>
    match lastRuleOfType t rest with
    | some r2 => some r2
    | none => if r.type == t then some r else none

lemma applyRule_bw_fields_of_not_bw (mult : ℚ) (self : NsxVQosRule)
    (r : QosRuleObj) (hb : (r.type == RULE_TYPE_BANDWIDTH_LIMIT) = false) :
    (applyRule mult self r).bandwidthEnabled = self.bandwidthEnabled ∧
    (applyRule mult self r).averageBandwidth = self.averageBandwidth ∧
    (applyRule mult self r).peakBandwidth = self.peakBandwidth ∧
    (applyRule mult self r).burstSize = self.burstSize := by
  cases hd : r.type == RULE_TYPE_DSCP_MARKING <;>
    simp [applyRule, hb, hd]

lemma applyRule_dscp_fields_of_not_dscp (mult : ℚ) (self : NsxVQosRule)
    (r : QosRuleObj) (hd : (r.type == RULE_TYPE_DSCP_MARKING) = false) :
    (applyRule mult self r).dscpMarkEnabled = self.dscpMarkEnabled ∧
    (applyRule mult self r).dscpMarkValue = self.dscpMarkValue := by
  cases hb : r.type == RULE_TYPE_BANDWIDTH_LIMIT <;>
    simp [applyRule, hb, hd]

lemma foldl_applyRule_bw_none (mult : ℚ) :
    ∀ (rules : List QosRuleObj) (self : NsxVQosRule),
    lastRuleOfType RULE_TYPE_BANDWIDTH_LIMIT rules = none →
    ((rules.foldl (applyRule mult) self).bandwidthEnabled =
        self.bandwidthEnabled ∧
     (rules.foldl (applyRule mult) self).averageBandwidth =
        self.averageBandwidth ∧
     (rules.foldl (applyRule mult) self).peakBandwidth =
        self.peakBandwidth ∧
     (rules.foldl (applyRule mult) self).burstSize = self.burstSize)
  | [], self, _ => ⟨rfl, rfl, rfl, rfl⟩
  | r0 :: rest, self, h => by
    simp only [lastRuleOfType] at h
    cases hr : lastRuleOfType RULE_TYPE_BANDWIDTH_LIMIT rest with
    | some r2 => rw [hr] at h; simp at h
    | none =>
      rw [hr] at h
      have hb : (r0.type == RULE_TYPE_BANDWIDTH_LIMIT) = false := by
        cases hb2 : r0.type == RULE_TYPE_BANDWIDTH_LIMIT with
        | false => rfl
        | true => rw [hb2] at h; simp at h
      obtain ⟨e1, e2, e3, e4⟩ :=
        foldl_applyRule_bw_none mult rest (applyRule mult self r0) hr
      obtain ⟨a1, a2, a3, a4⟩ := applyRule_bw_fields_of_not_bw mult self r0 hb
      rw [List.foldl_cons]
      exact ⟨e1.trans a1, e2.trans a2, e3.trans a3, e4.trans a4⟩

lemma foldl_applyRule_bw_some (mult : ℚ) :
    ∀ (rules : List QosRuleObj) (r : QosRuleObj) (self : NsxVQosRule),
    lastRuleOfType RULE_TYPE_BANDWIDTH_LIMIT rules = some r →
    ((rules.foldl (applyRule mult) self).bandwidthEnabled = true ∧
     (rules.foldl (applyRule mult) self).averageBandwidth =
        r.max_kbps * 1024 ∧
     (rules.foldl (applyRule mult) self).peakBandwidth =
        pyRound (((r.max_kbps * 1024 : ℤ) : ℚ) * mult) ∧
     (rules.foldl (applyRule mult) self).burstSize = r.max_burst_kbps * 128)
  | [], r, self, h => by simp [lastRuleOfType] at h
  | r0 :: rest, r, self, h => by
    simp only [lastRuleOfType] at h
    cases hr : lastRuleOfType RULE_TYPE_BANDWIDTH_LIMIT rest with
    | some r2 =>
      rw [hr] at h
      simp only [Option.some.injEq] at h
      subst h
      rw [List.foldl_cons]
      exact foldl_applyRule_bw_some mult rest r2 (applyRule mult self r0) hr
    | none =>
      rw [hr] at h
      cases hb : r0.type == RULE_TYPE_BANDWIDTH_LIMIT with
      | false => rw [hb] at h; simp at h
      | true =>
        rw [hb] at h
        simp only [if_pos, Option.some.injEq] at h
        subst h
        have htyp : r0.type = RULE_TYPE_BANDWIDTH_LIMIT := by
          simpa using hb
        have hd : (r0.type == RULE_TYPE_DSCP_MARKING) = false := by
          simp [htyp, RULE_TYPE_BANDWIDTH_LIMIT, RULE_TYPE_DSCP_MARKING]
        obtain ⟨e1, e2, e3, e4⟩ :=
          foldl_applyRule_bw_none mult rest (applyRule mult self r0) hr
        rw [List.foldl_cons]
        refine ⟨e1.trans ?_, e2.trans ?_, e3.trans ?_, e4.trans ?_⟩ <;>
          simp [applyRule, hb, hd]

lemma foldl_applyRule_dscp_none (mult : ℚ) :
    ∀ (rules : List QosRuleObj) (self : NsxVQosRule),
    lastRuleOfType RULE_TYPE_DSCP_MARKING rules = none →
    ((rules.foldl (applyRule mult) self).dscpMarkEnabled =
        self.dscpMarkEnabled ∧
     (rules.foldl (applyRule mult) self).dscpMarkValue = self.dscpMarkValue)
  | [], self, _ => ⟨rfl, rfl⟩
  | r0 :: rest, self, h => by
    simp only [lastRuleOfType] at h
    cases hr : lastRuleOfType RULE_TYPE_DSCP_MARKING rest with
    | some r2 => rw [hr] at h; simp at h
    | none =>
      rw [hr] at h
      have hd : (r0.type == RULE_TYPE_DSCP_MARKING) = false := by
        cases hd2 : r0.type == RULE_TYPE_DSCP_MARKING with
        | false => rfl
        | true => rw [hd2] at h; simp at h
      obtain ⟨e1, e2⟩ :=
        foldl_applyRule_dscp_none mult rest (applyRule mult self r0) hr
      obtain ⟨a1, a2⟩ := applyRule_dscp_fields_of_not_dscp mult self r0 hd
      rw [List.foldl_cons]
      exact ⟨e1.trans a1, e2.trans a2⟩

lemma foldl_applyRule_dscp_some (mult : ℚ) :
    ∀ (rules : List QosRuleObj) (r : QosRuleObj) (self : NsxVQosRule),
    lastRuleOfType RULE_TYPE_DSCP_MARKING rules = some r →
    ((rules.foldl (applyRule mult) self).dscpMarkEnabled = true ∧
     (rules.foldl (applyRule mult) self).dscpMarkValue = r.dscp_mark)
  | [], r, self, h => by simp [lastRuleOfType] at h
  | r0 :: rest, r, self, h => by
    simp only [lastRuleOfType] at h
    cases hr : lastRuleOfType RULE_TYPE_DSCP_MARKING rest with
    | some r2 =>
      rw [hr] at h
      simp only [Option.some.injEq] at h
      subst h
      rw [List.foldl_cons]
      exact foldl_applyRule_dscp_some mult rest r2 (applyRule mult self r0) hr
    | none =>
      rw [hr] at h
      cases hd : r0.type == RULE_TYPE_DSCP_MARKING with
      | false => rw [hd] at h; simp at h
      | true =>
        rw [hd] at h
        simp only [if_pos, Option.some.injEq] at h
        subst h
        obtain ⟨e1, e2⟩ :=
          foldl_applyRule_dscp_none mult rest (applyRule mult self r0) hr
        rw [List.foldl_cons]
        cases hb : r0.type == RULE_TYPE_BANDWIDTH_LIMIT <;>
          exact ⟨e1.trans (by simp [applyRule, hb, hd]),
                 e2.trans (by simp [applyRule, hb, hd])⟩

lemma init_eq_foldl (mult : ℚ) (get_policy : String → PolicyObj)
    (pid : String) (rules : List QosRuleObj)
    (hgp : (get_policy pid).rules = some rules) (h : rules ≠ []) :
    NsxVQosRule.init mult get_policy (some pid) =
      rules.foldl (applyRule mult) ⟨false, 0, 0, 0, false, 0⟩ := by
  cases rules with
  | nil => exact absurd rfl h
  | cons a l => simp [NsxVQosRule.init, _init_from_policy_id, hgp]

lemma lastRuleOfType_eq_none (t : String) :
    ∀ l : List QosRuleObj, (∀ x ∈ l, x.type ≠ t) → lastRuleOfType t l = none
  | [], _ => rfl
  | r :: rest, h => by
    have hrest := lastRuleOfType_eq_none t rest (fun x hx => h x (by simp [hx]))
    have hr : r.type ≠ t := h r (by simp)
    simp [lastRuleOfType, hrest, hr]

lemma lastRuleOfType_append_last (t : String) (l2 : List QosRuleObj)
    (r : QosRuleObj) (hr : r.type = t) (h2 : ∀ x ∈ l2, x.type ≠ t) :
    ∀ l1 : List QosRuleObj, lastRuleOfType t (l1 ++ r :: l2) = some r
  | [] => by simp [lastRuleOfType, lastRuleOfType_eq_none t l2 h2, hr]
  | a :: l1 => by
    simp [lastRuleOfType, lastRuleOfType_append_last t l2 r hr h2 l1]

/-- C4: for every multiplier and every policy whose last bandwidth-limit
rule is `r`, the resolver computes `averageBandwidth = max_kbps * 1024`,
`burstSize = max_burst_kbps * 128` and
`peakBandwidth = round(averageBandwidth * multiplier)` over exact
rational/integer arithmetic; in particular `max_kbps = 100`,
`max_burst_kbps = 10`, multiplier `3/2` yields `102400`, `1280`,
`153600`. -/
theorem qos_bandwidth_conversions_exact :
    (∀ (mult : ℚ) (get_policy : String → PolicyObj) (pid : String)
       (rules : List QosRuleObj) (r : QosRuleObj),
      (get_policy pid).rules = some rules →
      lastRuleOfType RULE_TYPE_BANDWIDTH_LIMIT rules = some r →
      ((NsxVQosRule.init mult get_policy (some pid)).averageBandwidth =
          r.max_kbps * 1024 ∧
       (NsxVQosRule.init mult get_policy (some pid)).burstSize =
          r.max_burst_kbps * 128 ∧
       (NsxVQosRule.init mult get_policy (some pid)).peakBandwidth =
          pyRound (((r.max_kbps * 1024 : ℤ) : ℚ) * mult))) ∧
    NsxVQosRule.init (3 / 2)
        (fun _ => ⟨some [⟨RULE_TYPE_BANDWIDTH_LIMIT, 100, 10, 0⟩]⟩)
        (some "p") =
      ⟨true, 102400, 153600, 1280, false, 0⟩ := by
  constructor
  · intro mult get_policy pid rules r hgp h
    have hne : rules ≠ [] := by
      intro e
      rw [e] at h
      simp [lastRuleOfType] at h
    rw [init_eq_foldl mult get_policy pid rules hgp hne]
    obtain ⟨_, e2, e3, e4⟩ :=
      foldl_applyRule_bw_some mult rules r ⟨false, 0, 0, 0, false, 0⟩ h
    exact ⟨e2, e4, e3⟩
  · simp [NsxVQosRule.init, _init_from_policy_id, applyRule,
      RULE_TYPE_BANDWIDTH_LIMIT, RULE_TYPE_DSCP_MARKING]
    exact pyRound_eq_of_intCast (by push_cast; norm_num)

/-- C4 witness: the universal part applied to a one-rule policy. -/
theorem qos_bandwidth_conversions_witness :
    (NsxVQosRule.init 2
        (fun _ => ⟨some [⟨RULE_TYPE_BANDWIDTH_LIMIT, 5, 3, 0⟩]⟩)
        (some "p")).averageBandwidth = 5 * 1024 ∧
    (NsxVQosRule.init 2
        (fun _ => ⟨some [⟨RULE_TYPE_BANDWIDTH_LIMIT, 5, 3, 0⟩]⟩)
        (some "p")).burstSize = 3 * 128 ∧
    (NsxVQosRule.init 2
        (fun _ => ⟨some [⟨RULE_TYPE_BANDWIDTH_LIMIT, 5, 3, 0⟩]⟩)
        (some "p")).peakBandwidth = pyRound (((5 * 1024 : ℤ) : ℚ) * 2) :=
  qos_bandwidth_conversions_exact.1 2
    (fun _ => ⟨some [⟨RULE_TYPE_BANDWIDTH_LIMIT, 5, 3, 0⟩]⟩) "p"
    [⟨RULE_TYPE_BANDWIDTH_LIMIT, 5, 3, 0⟩]
    ⟨RULE_TYPE_BANDWIDTH_LIMIT, 5, 3, 0⟩ rfl (by decide)

/-- C5: when the rule list is `l1 ++ r :: l2` and no rule of `r`'s kind
occurs after `r`, the resolved fields of that kind carry exactly `r`'s
values, whatever rules (of any kind) precede it — the last rule of each
kind wins and earlier rules of the same kind have no effect. -/
theorem qos_last_rule_of_each_kind_wins (mult : ℚ)
    (get_policy : String → PolicyObj) (pid : String)
    (l1 l2 : List QosRuleObj) (r : QosRuleObj)
    (hgp : (get_policy pid).rules = some (l1 ++ r :: l2)) :
    (r.type = RULE_TYPE_BANDWIDTH_LIMIT →
     (∀ x ∈ l2, x.type ≠ RULE_TYPE_BANDWIDTH_LIMIT) →
      ((NsxVQosRule.init mult get_policy (some pid)).bandwidthEnabled = true ∧
       (NsxVQosRule.init mult get_policy (some pid)).averageBandwidth =
          r.max_kbps * 1024 ∧
       (NsxVQosRule.init mult get_policy (some pid)).peakBandwidth =
          pyRound (((r.max_kbps * 1024 : ℤ) : ℚ) * mult) ∧
       (NsxVQosRule.init mult get_policy (some pid)).burstSize =
          r.max_burst_kbps * 128)) ∧
    (r.type = RULE_TYPE_DSCP_MARKING →
     (∀ x ∈ l2, x.type ≠ RULE_TYPE_DSCP_MARKING) →
      ((NsxVQosRule.init mult get_policy (some pid)).dscpMarkEnabled = true ∧
       (NsxVQosRule.init mult get_policy (some pid)).dscpMarkValue =
          r.dscp_mark)) := by
  have hne : l1 ++ r :: l2 ≠ [] := by simp
  rw [init_eq_foldl mult get_policy pid (l1 ++ r :: l2) hgp hne]
  constructor
  · intro hr h2
    exact foldl_applyRule_bw_some mult (l1 ++ r :: l2) r
      ⟨false, 0, 0, 0, false, 0⟩
      (lastRuleOfType_append_last RULE_TYPE_BANDWIDTH_LIMIT l2 r hr h2 l1)
  · intro hr h2
    exact foldl_applyRule_dscp_some mult (l1 ++ r :: l2) r
      ⟨false, 0, 0, 0, false, 0⟩
      (lastRuleOfType_append_last RULE_TYPE_DSCP_MARKING l2 r hr h2 l1)

/-- C5 witness: a policy with two bandwidth-limit rules resolves to the
second one's values, and a policy with two DSCP rules to the second
mark. -/
theorem qos_last_rule_wins_witness :
    ((NsxVQosRule.init 2
        (fun _ => ⟨some [⟨RULE_TYPE_BANDWIDTH_LIMIT, 50, 5, 0⟩,
                         ⟨RULE_TYPE_BANDWIDTH_LIMIT, 100, 10, 0⟩]⟩)
        (some "p")).bandwidthEnabled = true ∧
     (NsxVQosRule.init 2
        (fun _ => ⟨some [⟨RULE_TYPE_BANDWIDTH_LIMIT, 50, 5, 0⟩,
                         ⟨RULE_TYPE_BANDWIDTH_LIMIT, 100, 10, 0⟩]⟩)
        (some "p")).averageBandwidth = 100 * 1024 ∧
     (NsxVQosRule.init 2
        (fun _ => ⟨some [⟨RULE_TYPE_BANDWIDTH_LIMIT, 50, 5, 0⟩,
                         ⟨RULE_TYPE_BANDWIDTH_LIMIT, 100, 10, 0⟩]⟩)
        (some "p")).peakBandwidth = pyRound (((100 * 1024 : ℤ) : ℚ) * 2) ∧
     (NsxVQosRule.init 2
        (fun _ => ⟨some [⟨RULE_TYPE_BANDWIDTH_LIMIT, 50, 5, 0⟩,
                         ⟨RULE_TYPE_BANDWIDTH_LIMIT, 100, 10, 0⟩]⟩)
        (some "p")).burstSize = 10 * 128) ∧
    ((NsxVQosRule.init 2
        (fun _ => ⟨some [⟨RULE_TYPE_DSCP_MARKING, 0, 0, 8⟩,
                         ⟨RULE_TYPE_DSCP_MARKING, 0, 0, 16⟩]⟩)
        (some "p")).dscpMarkEnabled = true ∧
     (NsxVQosRule.init 2
        (fun _ => ⟨some [⟨RULE_TYPE_DSCP_MARKING, 0, 0, 8⟩,
                         ⟨RULE_TYPE_DSCP_MARKING, 0, 0, 16⟩]⟩)
        (some "p")).dscpMarkValue = 16) :=
  ⟨(qos_last_rule_of_each_kind_wins 2
      (fun _ => ⟨some [⟨RULE_TYPE_BANDWIDTH_LIMIT, 50, 5, 0⟩,
                       ⟨RULE_TYPE_BANDWIDTH_LIMIT, 100, 10, 0⟩]⟩) "p"
      [⟨RULE_TYPE_BANDWIDTH_LIMIT, 50, 5, 0⟩] []
      ⟨RULE_TYPE_BANDWIDTH_LIMIT, 100, 10, 0⟩ rfl).1 rfl (by simp),
   (qos_last_rule_of_each_kind_wins 2
      (fun _ => ⟨some [⟨RULE_TYPE_DSCP_MARKING, 0, 0, 8⟩,
                       ⟨RULE_TYPE_DSCP_MARKING, 0, 0, 16⟩]⟩) "p"
      [⟨RULE_TYPE_DSCP_MARKING, 0, 0, 8⟩] []
      ⟨RULE_TYPE_DSCP_MARKING, 0, 0, 16⟩ rfl).2 rfl (by simp)⟩

/-- C6: an absent policy id resolves, without any failure, to the default
"no QoS" record (both enabled flags false, all numeric fields zero), and
so does a policy with an empty rule list or no `rules` key at all. -/
theorem qos_absent_policy_yields_defaults (mult : ℚ)
    (get_policy : String → PolicyObj) (pid : String) :
    NsxVQosRule.init mult get_policy none = ⟨false, 0, 0, 0, false, 0⟩ ∧
    ((get_policy pid).rules = some [] →
      NsxVQosRule.init mult get_policy (some pid) =
        ⟨false, 0, 0, 0, false, 0⟩) ∧
    ((get_policy pid).rules = none →
      NsxVQosRule.init mult get_policy (some pid) =
        ⟨false, 0, 0, 0, false, 0⟩) :=
  ⟨rfl,
   fun h => by simp [NsxVQosRule.init, _init_from_policy_id, h],
   fun h => by simp [NsxVQosRule.init, _init_from_policy_id, h]⟩

/-- C6 witness: the defaults theorem applied to concrete policy stores. -/
theorem qos_absent_policy_defaults_witness :
    NsxVQosRule.init 2 (fun _ => ⟨some []⟩) none =
      ⟨false, 0, 0, 0, false, 0⟩ ∧
    NsxVQosRule.init 2 (fun _ => ⟨some []⟩) (some "p") =
      ⟨false, 0, 0, 0, false, 0⟩ ∧
    NsxVQosRule.init 2 (fun _ => ⟨none⟩) (some "p") =
      ⟨false, 0, 0, 0, false, 0⟩ :=
  ⟨(qos_absent_policy_yields_defaults 2 (fun _ => ⟨some []⟩) "p").1,
   (qos_absent_policy_yields_defaults 2 (fun _ => ⟨some []⟩) "p").2.1 rfl,
   (qos_absent_policy_yields_defaults 2 (fun _ => ⟨none⟩) "p").2.2 rfl⟩

/-! Operation-surface theorems. -/

/-- C7: a supplied teaming policy outside the allowed set causes no
`update_vdn_switch` call, and the error output lists the complete allowed
set. -/
theorem update_switch_invalid_policy_no_mutation
    (get_vdn_switch : String → Option VdnSwitch)
    (update_vdn_switch : VdnSwitch → Except String VdnSwitch)
    (properties : String → Option String) (dvs_id : String)
    (switch : VdnSwitch) (policy : String)
    (h1 : properties "dvs-id" = some dvs_id) (h2 : dvs_id ≠ "")
    (h3 : get_vdn_switch dvs_id = some switch)
    (h4 : properties "teamingpolicy" = some policy)
    (h5 : policy ∉ supported_policies) :
    (nsx_update_switch get_vdn_switch update_vdn_switch
        (some properties)).updateCalls = [] ∧
    ("Possible values: " ++ String.intercalate ", " supported_policies) ∈
      (nsx_update_switch get_vdn_switch update_vdn_switch
        (some properties)).errors := by
  simp [nsx_update_switch, h1, h2, h3, h4, h5]

/-- C7 witness: a concrete run with policy `"BOGUS"`. -/
theorem update_switch_invalid_policy_witness :
    (nsx_update_switch (fun _ => some ⟨"ETHER_CHANNEL", "y"⟩) (fun s => .ok s)
        (some (fun k => if k = "dvs-id" then some "21"
                        else if k = "teamingpolicy" then some "BOGUS"
                        else none))).updateCalls = [] ∧
    ("Possible values: " ++ String.intercalate ", " supported_policies) ∈
      (nsx_update_switch (fun _ => some ⟨"ETHER_CHANNEL", "y"⟩) (fun s => .ok s)
        (some (fun k => if k = "dvs-id" then some "21"
                        else if k = "teamingpolicy" then some "BOGUS"
                        else none))).errors :=
  update_switch_invalid_policy_no_mutation
    (fun _ => some ⟨"ETHER_CHANNEL", "y"⟩) (fun s => .ok s)
    (fun k => if k = "dvs-id" then some "21"
              else if k = "teamingpolicy" then some "BOGUS" else none)
    "21" ⟨"ETHER_CHANNEL", "y"⟩ "BOGUS"
    (by decide) (by decide) rfl (by decide) (by decide)

/-- C10: a supplied teaming policy that is allowed but equal to the
switch's current one causes no `update_vdn_switch` call; the run only
logs "Policy already set!" and the switch record is left as it was. -/
theorem update_switch_policy_already_set_no_mutation
    (get_vdn_switch : String → Option VdnSwitch)
    (update_vdn_switch : VdnSwitch → Except String VdnSwitch)
    (properties : String → Option String) (dvs_id : String)
    (switch : VdnSwitch) (policy : String)
    (h1 : properties "dvs-id" = some dvs_id) (h2 : dvs_id ≠ "")
    (h3 : get_vdn_switch dvs_id = some switch)
    (h4 : properties "teamingpolicy" = some policy)
    (h5 : policy ∈ supported_policies)
    (h6 : switch.teamingPolicy = policy) :
    nsx_update_switch get_vdn_switch update_vdn_switch (some properties) =
      ⟨[], [], ["Policy already set!"]⟩ := by
  simp [nsx_update_switch, h1, h2, h3, h4, h5, h6]

/-- C10 witness: a concrete run where the requested policy is already
set. -/
theorem update_switch_policy_already_set_witness :
    nsx_update_switch (fun _ => some ⟨"LACP_V2", "y"⟩) (fun s => .ok s)
        (some (fun k => if k = "dvs-id" then some "21"
                        else if k = "teamingpolicy" then some "LACP_V2"
                        else none)) =
      ⟨[], [], ["Policy already set!"]⟩ :=
  update_switch_policy_already_set_no_mutation
    (fun _ => some ⟨"LACP_V2", "y"⟩) (fun s => .ok s)
    (fun k => if k = "dvs-id" then some "21"
              else if k = "teamingpolicy" then some "LACP_V2" else none)
    "21" ⟨"LACP_V2", "y"⟩ "LACP_V2"
    (by decide) (by decide) rfl (by decide) (by decide) rfl

/-- C8: deleting a distributed-port-group moref whose current display
name does not match the `^dvs-\d*` pattern reports the failure and calls
neither `delete_port_group` nor `delete_virtual_wire`. -/
theorem delete_vlan_network_unparsable_name_no_mutation
    (name_map : List (String × String))
    (delete_port_group : String → String → Except String Unit)
    (delete_virtual_wire : String → Except String Unit)
    (properties : String → Option String) (moref backend_name : String)
    (h1 : properties "moref" = some moref) (h2 : moref ≠ "")
    (h3 : dictGet name_map moref = some backend_name)
    (h4 : backend_name ≠ "")
    (h5 : pyStartsWith moref PORTGROUP_PREFIX = true)
    (h6 : get_dvs_id_from_backend_name backend_name = none) :
    delete_backend_network name_map delete_port_group delete_virtual_wire
        (some properties) =
      ⟨[], [], ["Failed to find the DVS id of backend network " ++ moref],
       []⟩ := by
  simp [delete_backend_network, h1, h2, h3, h4, h5, h6]

/-- C8 witness: a concrete run on a port group whose backend name does
not carry the adapter id. -/
theorem delete_vlan_network_unparsable_name_witness :
    delete_backend_network [("dvportgroup-1", "pg one")]
        (fun _ _ => .ok ()) (fun _ => .ok ())
        (some (fun k => if k = "moref" then some "dvportgroup-1" else none)) =
      ⟨[], [],
       ["Failed to find the DVS id of backend network " ++ "dvportgroup-1"],
       []⟩ :=
  delete_vlan_network_unparsable_name_no_mutation
    [("dvportgroup-1", "pg one")] (fun _ _ => .ok ()) (fun _ => .ok ())
    (fun k => if k = "moref" then some "dvportgroup-1" else none)
    "dvportgroup-1" "pg one"
    (by decide) (by decide) (by decide) (by decide) (by decide) (by decide)
